import Mathlib

/-!
Verification development for the TLDR-Bot captcha gateway module
(src/modules/captcha_verification.py).  Each Python function relevant to
the frozen claims is translated into an executable Lean definition over
explicit state records; platform side effects (bans, kicks, direct
messages, channel deletion, invite revocation) are recorded as fields of
the state so that theorems can count them.
-/

set_option linter.unusedVariables false

namespace Captcha

/-- Module configuration slice used by the embedded handlers.  Mirrors the
default settings document written by CaptchaModule.init (lines
1390-1406): captcha_time_to_live = 900, blacklist_length = 86400,
gateway_rejoin.limit = 3, gateway_rejoin.blacklist_duration = 86400. -/
structure CaptchaConfig where
  captcha_time_to_live : Int
  blacklist_length : Int
  rejoin_limit : Int
  rejoin_blacklist_duration : Int
deriving Repr, DecidableEq

/-- The default configuration from CaptchaModule.init. -/
def defaultConfig : CaptchaConfig :=
  { captcha_time_to_live := 900
    blacklist_length := 86400
    rejoin_limit := 3
    rejoin_blacklist_duration := 86400 }

/-- One document of the captcha_blacklist collection, as written by
DataManager.add_member_to_blacklist (lines 392-409): member id, start
time, end time (= start + duration) and a reason string. -/
structure BlacklistEntry where
  mid : Nat
  started : Int
  ends : Int
  reason : String
deriving Repr, DecidableEq

/-- DataManager.add_member_to_blacklist (lines 392-409): inserts one new
document with started = now and ends = now + duration. -/
def add_member_to_blacklist (blacklist : List BlacklistEntry) (member_id : Nat)
    (now : Int) (duration : Int) (reason : String) : List BlacklistEntry :=
  blacklist ++ [{ mid := member_id, started := now, ends := now + duration, reason := reason }]

/-- DataManager.get_blacklisted_member_info (lines 411-426): a plain
find_one on the member id.  Note that it applies no filter on the ends
field: expiry of the interval is not consulted here. -/
def get_blacklisted_member_info (blacklist : List BlacklistEntry) (member_id : Nat) :
    Option BlacklistEntry :=
  blacklist.find? (fun e => e.mid == member_id)

/-- DataManager.remove_member_from_blacklist (lines 428-437): delete_one
on the member id, i.e. the first matching document is removed. -/
def remove_member_from_blacklist : List BlacklistEntry → Nat → List BlacklistEntry
  | [], _ => []
  | e :: rest, member_id =>
      if e.mid == member_id then rest
      else e :: remove_member_from_blacklist rest member_id

/-- The blacklist half of CaptchaModule.unban_task (lines 1716-1742): the
task takes a snapshot of the blacklist, and for every snapshot entry
whose ends has elapsed it unbans the member and issues a delete_one on
the member id against the live collection. -/
def unban_task_blacklist_pass (blacklist : List BlacklistEntry) (now : Int) :
    List BlacklistEntry :=
  (blacklist.filter (fun e => e.ends ≤ now)).foldl
    (fun bl e => remove_member_from_blacklist bl e.mid) blacklist

/-- pymongo Collection.find as used by DataManager.is_registered_invitation
(line 451): find returns a Cursor over the matching documents.  The
cursor object itself exists even when no document matches, which is
modelled by always returning some.  (find_one, by contrast, would return
None on no match, modelled elsewhere by List.find?.) -/
def mongo_find_registered (coll : List String) (code : String) : Option (List String) :=
  some (coll.filter (fun c => c == code))

/-- DataManager.is_registered_invitation (lines 450-451): compares the
result of Collection.find against None. -/
def is_registered_invitation (coll : List String) (code : String) : Bool :=
  (mongo_find_registered coll code).isSome

/-- DataManager.add_registered_invitation (lines 453-454): insert_one. -/
def add_registered_invitation (coll : List String) (code : String) : List String :=
  coll ++ [code]

/-- DataManager.remove_registered_invitation (lines 456-457): delete_one,
removing the first matching document. -/
def remove_registered_invitation : List String → String → List String
  | [], _ => []
  | c :: rest, code =>
      if c == code then rest else c :: remove_registered_invitation rest code

/-- One temporal entry of TrackerManager, created by
create_temporal_entry (lines 508-532): creation time, expiry time
(creation + member_join_timeout) and the ordered list of member ids that
joined through the invite. -/
structure TemporalEntry where
  started : Int
  finished : Int
  uses : List Nat
deriving Repr, DecidableEq

/-- State of TrackerManager (lines 460-693) for the destination guild,
together with the platform effects its join handler can emit.  The
temporal cache is the dictionary invite code to temporal entry; kicks,
dms and deleted_invites record the irreversible platform actions. -/
structure TrackerState where
  registered_invitations : List String
  temporal_cache : List (String × TemporalEntry)
  minimum_member_count : Nat
  member_join_timeout : Int
  kicks : List Nat
  dms : List Nat
  deleted_invites : List String
deriving Repr, DecidableEq

/-- TrackerManager.has_temporal_entry (lines 476-490). -/
def has_temporal_entry (s : TrackerState) (invite_code : String) : Bool :=
  (s.temporal_cache.find? (fun p => p.1 == invite_code)).isSome

/-- TrackerManager.is_registered (lines 492-506): delegates to
DataManager.is_registered_invitation. -/
def tracker_is_registered (s : TrackerState) (invite_code : String) : Bool :=
  is_registered_invitation s.registered_invitations invite_code

/-- TrackerManager.create_temporal_entry (lines 508-532): window from now
to now + member_join_timeout, empty uses list. -/
def create_temporal_entry (s : TrackerState) (invite_code : String) (now : Int) :
    TrackerState :=
  let entry : TemporalEntry :=
    { started := now, finished := now + s.member_join_timeout, uses := [] }
  { s with temporal_cache := s.temporal_cache ++ [(invite_code, entry)] }

/-- TrackerManager.add_member_to_temporal_entry (lines 534-545): appends
the member id to the uses list of the entry for the code. -/
def add_member_to_temporal_entry (s : TrackerState) (invite_code : String)
    (member_id : Nat) : TrackerState :=
  let upd : String × TemporalEntry → String × TemporalEntry := fun p =>
    if p.1 == invite_code then (p.1, { p.2 with uses := p.2.uses ++ [member_id] }) else p
  { s with temporal_cache := s.temporal_cache.map upd }

/-- TrackerManager.get_temporal_entry (lines 547-562). -/
def get_temporal_entry (s : TrackerState) (invite_code : String) : Option TemporalEntry :=
  (s.temporal_cache.find? (fun p => p.1 == invite_code)).map (fun p => p.2)

/-- TrackerManager.remove_temporal_entry (lines 564-574): a Python del on
the dictionary key. -/
def remove_temporal_entry (s : TrackerState) (invite_code : String) : TrackerState :=
  { s with temporal_cache := s.temporal_cache.filter (fun p => !(p.1 == invite_code)) }

/-- TrackerManager.on_member_join (lines 607-679), from the point at
which the consumed invite has been resolved by the use-count diff (the
invite_code argument) and the join is known to be on the destination
guild.  Faithfully, in order: the registered-invitation gate (line 640),
temporal entry creation if absent (lines 643-644), appending the joiner
(line 646), and the window evaluation (lines 649-679): when finished ≤
now and the accumulated uses reach minimum_member_count, every listed
member is direct-messaged a referral and kicked, the entry is removed
and the invite is deleted; when finished > now the entry is removed. -/
def tracker_on_member_join (s : TrackerState) (invite_code : String) (member_id : Nat)
    (now : Int) : TrackerState :=
  if tracker_is_registered s invite_code then s
  else
    let s1 := if has_temporal_entry s invite_code = false
              then create_temporal_entry s invite_code now else s
    let s2 := add_member_to_temporal_entry s1 invite_code member_id
    match get_temporal_entry s2 invite_code with
    | none => s2
    | some entry =>
        if entry.finished ≤ now then
          if s2.minimum_member_count ≤ entry.uses.length then
            let s3 := { s2 with dms := s2.dms ++ entry.uses, kicks := s2.kicks ++ entry.uses }
            let s4 := remove_temporal_entry s3 invite_code
            { s4 with deleted_invites := s4.deleted_invites ++ [invite_code] }
          else s2
        else remove_temporal_entry s2 invite_code

/-- Invite parameters, as passed to discord channel.create_invite. -/
structure InviteSpec where
  max_age : Int
  max_uses : Int
deriving Repr, DecidableEq

/-- CaptchaChannel.create_tldr_invite (lines 1047-1068): when the
main_guild_landing_channel setting resolves to a channel, creates an
invite with max_age = 120 and max_uses = 1; otherwise logs a warning and
returns None. -/
def create_tldr_invite (main_channel_configured : Bool) : Option InviteSpec :=
  if main_channel_configured then some { max_age := 120, max_uses := 1 } else none

/-- In-memory state of one CaptchaChannel (lines 695-1074) together with
its mirrored database record (the captcha_channels document) and the
platform effects its handlers can produce.  countdown_running models
whether the timers.loop ticket of countdown is scheduled (start/stop). -/
structure ChannelState where
  started : Bool
  answer_text : Option String
  tries : Int
  completed : Bool
  active : Bool
  invite : Option InviteSpec
  ttl : Int
  internal_clock : Int
  countdown_running : Bool
  channel_deleted : Bool
  member_banned : Bool
  blacklist : List BlacklistEntry
  member_cache : List Nat
  db_tries : Int
  db_active : Bool
  db_completed : Bool
  db_failed : Bool
  db_ttl : Int
  alerts : Nat
  messages_sent : Nat
deriving Repr, DecidableEq

/-- CaptchaChannel.init (lines 696-720): tries = 5, ttl from the
configuration, internal clock 0, inactive, not started, no answer text,
no invite, not completed. -/
def initChannelState (cfg : CaptchaConfig) : ChannelState :=
  { started := false
    answer_text := none
    tries := 5
    completed := false
    active := false
    invite := none
    ttl := cfg.captcha_time_to_live
    internal_clock := 0
    countdown_running := false
    channel_deleted := false
    member_banned := false
    blacklist := []
    member_cache := []
    db_tries := 5
    db_active := true
    db_completed := false
    db_failed := false
    db_ttl := cfg.captcha_time_to_live
    alerts := 0
    messages_sent := 0 }

/-- The whole-minute reminder marks checked by countdown (line 820). -/
def reminder_minute_marks : List Int := [10, 5, 4, 3, 2, 1]

/-- The second reminder marks checked by countdown (line 822). -/
def reminder_second_marks : List Int := [30, 15, 10, 5]

/-- CaptchaChannel.countdown (lines 783-863), one tick of the
timers.loop(seconds=1) body; the loop only fires while the ticket is
scheduled, hence the countdown_running guard.  The body decrements ttl,
advances the internal clock (persisting ttl each 60 ticks), runs the
reminder checks - which in the source sit inside the guard
`if self._ttl >= 600`, with the float test `minutes in [10,5,4,3,2,1]`
rendered as divisibility by 60 plus membership - and on ttl ≤ 0 sends
the time-elapsed message, stops the loop, persists the failed record,
and unless the member is an operator bans them and blacklists them for a
hard-coded 900 seconds (line 860), before deleting the channel. -/
def countdown_tick (cfg : CaptchaConfig) (is_operator : Bool) (member_id : Nat)
    (now : Int) (s : ChannelState) : ChannelState :=
  if s.countdown_running = false then s
  else
    let ttl := s.ttl - 1
    let clock0 := s.internal_clock + 1
    let clock := if 60 ≤ clock0 then 0 else clock0
    let db_ttl := if 60 ≤ clock0 then ttl else s.db_ttl
    let alert1 : Nat := if 600 ≤ ttl ∧ ttl % 60 = 0 ∧ ttl / 60 ∈ reminder_minute_marks then 1 else 0
    let alert2 : Nat := if 600 ≤ ttl ∧ ttl ∈ reminder_second_marks then 1 else 0
    let s1 := { s with ttl := ttl, internal_clock := clock, db_ttl := db_ttl,
                       alerts := s.alerts + alert1 + alert2,
                       messages_sent := s.messages_sent + alert1 + alert2 }
    if ttl ≤ 0 then
      let s2 := { s1 with messages_sent := s1.messages_sent + 1,
                          countdown_running := false,
                          db_active := false, db_completed := false, db_failed := true,
                          db_ttl := 0 }
      let s3 :=
        if is_operator = false then
          let bl := add_member_to_blacklist s2.blacklist member_id now 900
            "Failed to complete Captcha assessment."
          { s2 with member_banned := true, blacklist := bl }
        else s2
      { s3 with channel_deleted := true }
    else s1

/-- CaptchaChannel.start restoring a persisted tries value (lines
889-890): `if kwargs.get("tries"):` is truthy only when the key is
present and its value is non-zero, so a snapshot of 0 is treated as
absent and the tries value set by init is kept. -/
def start_restore_tries (kwargs_tries : Option Int) (tries : Int) : Int :=
  match kwargs_tries with
  | some t => if t ≠ 0 then t else tries
  | none => tries

/-- The tries decrement of CaptchaChannel.on_message (line 997):
decrement by 1 with a floor of 0. -/
def wrong_answer_tries (tries : Int) : Int :=
  if tries > 0 then tries - 1 else 0

/-- Python str.lower as applied on line 995, rendered character-wise (the
challenge answers produced by random_chars are ASCII lowercase). -/
def py_lower (s : String) : String :=
  String.mk (s.data.map Char.toLower)

/-- CaptchaChannel.on_message (lines 985-1045).  Guards: return when not
started or no answer text is set (lines 989-993).  Mismatch (lowercased
content differs from the answer): send Incorrect, decrement tries with
floor 0 and persist it, re-send the captcha (rendering a fresh challenge
when tries is non-zero, the failed embed otherwise), and when tries has
reached 0, persist the failed record and, unless the member is an
operator, cache them, blacklist them for the configured blacklist_length
and ban them.  Match: create the single-use 120-second invite, mark
completed, send the completion embed and persist the completed record.
Neither branch stops the countdown loop or deletes the channel. -/
def on_message (cfg : CaptchaConfig) (is_operator : Bool) (main_channel_configured : Bool)
    (member_id : Nat) (now : Int) (fresh_answer : String) (content : String)
    (s : ChannelState) : ChannelState :=
  if s.started = false then s
  else
    match s.answer_text with
    | none => s
    | some answer =>
        if py_lower content ≠ answer then
          let s1 := { s with messages_sent := s.messages_sent + 1 }
          let tries := wrong_answer_tries s1.tries
          let s2 := { s1 with tries := tries, db_tries := tries }
          let s3 :=
            if tries ≠ 0 then
              { s2 with answer_text := some fresh_answer, messages_sent := s2.messages_sent + 1 }
            else
              { s2 with messages_sent := s2.messages_sent + 1 }
          if tries = 0 then
            let s4 := { s3 with db_active := false, db_completed := false, db_failed := true }
            if is_operator = false then
              let bl := add_member_to_blacklist s4.blacklist member_id now
                cfg.blacklist_length
                "Failed to complete Captcha assessment; failed to complete the assessment in time.."
              { s4 with member_cache := s4.member_cache ++ [member_id],
                        blacklist := bl,
                        member_banned := true }
            else s4
          else s3
        else
          let s1 := { s with invite := create_tldr_invite main_channel_configured,
                             completed := true,
                             messages_sent := s.messages_sent + 1 }
          { s1 with db_active := false, db_completed := true, db_failed := false, db_ttl := 0 }

/-- State of one GatewayGuild as seen by its on_member_join handler
(lines 1295-1323), with the platform effects it can emit.  The
captcha_channels field is the session registry keyed by member id;
sessions_started records the members whose CaptchaChannel.start was
invoked. -/
structure GatewayGuildState where
  blacklist : List BlacklistEntry
  operators : List Nat
  guild_member_count : Nat
  captcha_channels : List Nat
  banned_members : List Nat
  operator_roles_granted : List Nat
  announcements : Nat
  sessions_started : List Nat
deriving Repr, DecidableEq

/-- GatewayGuild.on_member_join (lines 1295-1323).  In source order: if
get_blacklisted_member_info finds an entry the member is banned (line
1306) - with no early return; then the population-milestone announcement
check; then either the Operator role grant (for operators, assuming the
guild has the Operator role that load creates) or the creation and start
of a CaptchaChannel, which registers the member in the session
registry. -/
def gateway_on_member_join (s : GatewayGuildState) (member_id : Nat) : GatewayGuildState :=
  let s1 := if (get_blacklisted_member_info s.blacklist member_id).isSome
            then { s with banned_members := s.banned_members ++ [member_id] }
            else s
  let s2 := if s1.guild_member_count ∈ [100, 200, 300, 400, 500]
            then { s1 with announcements := s1.announcements + 1 }
            else s1
  if member_id ∈ s2.operators then
    { s2 with operator_roles_granted := s2.operator_roles_granted ++ [member_id] }
  else
    { s2 with captcha_channels := s2.captcha_channels ++ [member_id],
              sessions_started := s2.sessions_started ++ [member_id] }

/-- One document of the captcha_counter collection (the rejoin counter):
member id, counter value, last-updated time. -/
structure CounterEntry where
  mid : Nat
  counter : Int
  updated_at : Int
deriving Repr, DecidableEq

/-- Helper for the update_one branch of
DataManager.update_captcha_counter: set the counter of the first
document matching the member id. -/
def set_counter_first : List CounterEntry → Nat → Int → Int → List CounterEntry
  | [], _, _, _ => []
  | e :: rest, member_id, v, now =>
      if e.mid == member_id then { e with counter := v, updated_at := now } :: rest
      else e :: set_counter_first rest member_id v now

/-- DataManager.update_captcha_counter (lines 113-137): when a document
for the member exists, update_one sets counter to the old counter plus
the argument and refreshes updated_at; otherwise insert_one a fresh
document. -/
def update_captcha_counter (counters : List CounterEntry) (member_id : Nat) (c : Int)
    (now : Int) : List CounterEntry :=
  match counters.find? (fun e => e.mid == member_id) with
  | some entry => set_counter_first counters member_id (entry.counter + c) now
  | none => counters ++ [{ mid := member_id, counter := c, updated_at := now }]

/-- DataManager.get_captcha_counter (lines 139-148): find_one. -/
def get_captcha_counter (counters : List CounterEntry) (member_id : Nat) :
    Option CounterEntry :=
  counters.find? (fun e => e.mid == member_id)

/-- State of one GatewayGuild as seen by its on_member_leave handler
(lines 1325-1359): the session registry, the rejoin counters, the bans
of the underlying guild, and the blacklist. -/
structure GuildLeaveState where
  captcha_channels : List Nat
  counters : List CounterEntry
  guild_bans : List Nat
  blacklist : List BlacklistEntry
  operators : List Nat
  channels_deleted : Nat
deriving Repr, DecidableEq

/-- GatewayGuild.on_member_leave (lines 1325-1359).  Only acts when the
member has a captcha channel: the channel is destroyed and removed from
the registry; for non-operators the rejoin counter is incremented; then,
when a counter document exists, its counter has reached the configured
gateway_rejoin limit and the member is not an operator, the guild ban
list is scanned and the handler returns if the member is already banned
(lines 1343-1347); otherwise a blacklist entry with the configured
gateway_rejoin blacklist_duration is created and the member is banned. -/
def gateway_on_member_leave (cfg : CaptchaConfig) (s : GuildLeaveState) (member_id : Nat)
    (now : Int) : GuildLeaveState :=
  if member_id ∈ s.captcha_channels then
    let s1 := { s with captcha_channels := s.captcha_channels.filter (fun m => !(m == member_id)),
                       channels_deleted := s.channels_deleted + 1 }
    let is_op := member_id ∈ s1.operators
    let s2 := if is_op then s1
              else { s1 with counters := update_captcha_counter s1.counters member_id 1 now }
    match get_captcha_counter s2.counters member_id with
    | some entry =>
        if cfg.rejoin_limit ≤ entry.counter ∧ ¬ is_op then
          if member_id ∈ s2.guild_bans then s2
          else
            let bl := add_member_to_blacklist s2.blacklist member_id now
              cfg.rejoin_blacklist_duration "Rejoined a Gateway Guild too often."
            let s3 := { s2 with blacklist := bl }
            { s3 with guild_bans := s3.guild_bans ++ [member_id] }
        else s2
    | none => s2
  else s

/-- The operations of one logical verification session that can touch the
tries counter: a countdown tick, a wrong or right answer submission
(on_message lines 995-1000), and a process restart that reconstructs the
session from its persisted snapshot (init sets 5, then start restores
the snapshot value through its truthiness test). -/
inductive SessionOp where
  | tick
  | submitWrong
  | submitRight
  | restart (snapshot : Int)
deriving Repr, DecidableEq

/-- Effect of one session operation on the tries counter. -/
def apply_session_op (tries : Int) : SessionOp → Int
  | .tick => tries
  | .submitWrong => wrong_answer_tries tries
  | .submitRight => tries
  | .restart snapshot => start_restore_tries (some snapshot) 5

/-- Folds a sequence of session operations over the tries counter. -/
def run_session_ops (tries : Int) (ops : List SessionOp) : Int :=
  ops.foldl apply_session_op tries

/-- Restored snapshots drawn from the persisted record always lie in
[0, 5]: the record is created with tries 5 by add_captcha_channel and
only ever updated with values produced by the floor-0 decrement. -/
def snapshot_in_range : SessionOp → Bool
  | .restart snapshot => decide (0 ≤ snapshot) && decide (snapshot ≤ 5)
  | _ => true

/-- A TrackerManager state with an empty registered-invitation collection,
minimum_member_count 5 and member_join_timeout 60 seconds. -/
def trackerInit : TrackerState :=
  { registered_invitations := []
    temporal_cache := []
    minimum_member_count := 5
    member_join_timeout := 60
    kicks := []
    dms := []
    deleted_invites := [] }

/-- Ten members (ids 1 to 10) joining the destination through the single
unregistered invite code atk at seconds 0 to 9, all inside the 60-second
tracking window. -/
def c2_ten_joins : TrackerState :=
  (List.range 10).foldl (fun s i => tracker_on_member_join s "atk" (i + 1) (Int.ofNat i)) trackerInit

/-- A blacklist entry for member 42 created at time 0 with the default
failure duration, so it ends at 86400. -/
def c10_entry : BlacklistEntry :=
  { mid := 42, started := 0, ends := 86400, reason := "Failed to complete Captcha assessment." }

/-- A gateway guild holding the blacklist entry for member 42, who is not
an operator; the session registry is empty. -/
def c1_state : GatewayGuildState :=
  { blacklist := [c10_entry]
    operators := []
    guild_member_count := 5
    captcha_channels := []
    banned_members := []
    operator_roles_granted := []
    announcements := 0
    sessions_started := [] }

/-- An Active captcha channel with a rendered challenge whose answer is
qwerty, with the countdown ticket scheduled and ttl seconds remaining. -/
def runningChannelAt (t : Int) : ChannelState :=
  { initChannelState defaultConfig with
      started := true
      active := true
      countdown_running := true
      answer_text := some "qwerty"
      ttl := t
      db_ttl := t }

/-- An Active session, challenge answer qwerty, 500 seconds remaining. -/
def c6_session : ChannelState := runningChannelAt 500

/-- The state of c6_session after the member submits QWERTY, the correct
answer up to case. -/
def c6_result : ChannelState :=
  on_message defaultConfig false true 7 0 "fresh1" "QWERTY" c6_session

/-- The state of the completed session c6_result after one further
message zzz is delivered to its channel. -/
def c9_probe : ChannelState :=
  on_message defaultConfig false true 7 0 "fresh2" "zzz" c6_result

/-- A guild-leave state in which non-operator member 9 has a captcha
channel, a rejoin counter at 2, and is not banned: the next leave crosses
the default limit of 3. -/
def c7_cross_state : GuildLeaveState :=
  { captcha_channels := [9]
    counters := [{ mid := 9, counter := 2, updated_at := 0 }]
    guild_bans := []
    blacklist := []
    operators := []
    channels_deleted := 0 }

/-- A guild-leave state in which member 9 is already banned on the guild
while still having a rejoin counter over the limit. -/
def c7_banned_state : GuildLeaveState :=
  { captcha_channels := [9]
    counters := [{ mid := 9, counter := 5, updated_at := 0 }]
    guild_bans := [9]
    blacklist := []
    operators := []
    channels_deleted := 0 }

/-- Five consecutive wrong answers: the sequence that drives tries from 5
down to 0. -/
def c8_exhausted_ops : List SessionOp :=
  List.replicate 5 SessionOp.submitWrong

/-- A mixed operation sequence with an in-range restored snapshot. -/
def c8_mixed_ops : List SessionOp :=
  [SessionOp.submitWrong, SessionOp.restart 3, SessionOp.submitWrong]

end Captcha

namespace Captcha

/-! Helper lemmas shared by the claim theorems. -/

/-- find_one locates a document whenever one with the requested member id
is present, whatever its temporal fields hold. -/
theorem find?_isSome_of_mid_mem (bl : List BlacklistEntry) (member_id : Nat)
    (h : ∃ e ∈ bl, e.mid = member_id) :
    (get_blacklisted_member_info bl member_id).isSome = true := by
  obtain ⟨e, he, hmid⟩ := h
  unfold get_blacklisted_member_info
  rw [List.find?_isSome]
  exact ⟨e, he, by simp [hmid]⟩

/-- Whenever the blacklist lookup succeeds, the join handler bans the
member, whichever of its later branches runs. -/
theorem banned_on_join_of_blacklisted (s : GatewayGuildState) (member_id : Nat)
    (h : (get_blacklisted_member_info s.blacklist member_id).isSome = true) :
    member_id ∈ (gateway_on_member_join s member_id).banned_members := by
  unfold gateway_on_member_join
  simp only [h, if_true]
  split <;> split <;> simp

/-- set_counter_first rewrites exactly the document that find_one
returns. -/
theorem find?_set_counter_first (member_id : Nat) (v now : Int) :
    ∀ (counters : List CounterEntry) (c0 : CounterEntry),
      counters.find? (fun e => e.mid == member_id) = some c0 →
      (set_counter_first counters member_id v now).find? (fun e => e.mid == member_id) =
        some { c0 with counter := v, updated_at := now } := by
  intro counters
  induction counters with
  | nil => intro c0 h; simp [List.find?] at h
  | cons e rest ih =>
      intro c0 h
      by_cases hm : (e.mid == member_id) = true
      · simp only [List.find?, hm] at h
        injection h with h
        subst h
        simp [set_counter_first, hm, List.find?]
      · have hm2 : (e.mid == member_id) = false := by simpa using hm
        simp only [List.find?, hm2] at h
        simp [set_counter_first, hm2, List.find?, ih c0 h]

/-- Incrementing an existing rejoin counter and reading it back yields
the stored value plus the increment. -/
theorem get_update_counter (counters : List CounterEntry) (member_id : Nat) (c now : Int)
    (c0 : CounterEntry) (h : get_captcha_counter counters member_id = some c0) :
    get_captcha_counter (update_captcha_counter counters member_id c now) member_id =
      some { c0 with counter := c0.counter + c, updated_at := now } := by
  unfold get_captcha_counter at h ⊢
  unfold update_captcha_counter
  rw [h]
  exact find?_set_counter_first member_id (c0.counter + c) now counters c0 h

/-- A tick of a scheduled countdown always decrements ttl by exactly
one, in the surviving and in the expiring branch alike. -/
theorem countdown_tick_ttl (cfg : CaptchaConfig) (is_operator : Bool) (member_id : Nat)
    (now : Int) (s : ChannelState) (h : s.countdown_running = true) :
    (countdown_tick cfg is_operator member_id now s).ttl = s.ttl - 1 := by
  unfold countdown_tick
  simp only [h]
  repeat' split
  all_goals simp_all

/-- One session operation with an in-range snapshot keeps the tries
counter inside [0, 5]. -/
theorem apply_session_op_range (t : Int) (op : SessionOp)
    (hop : snapshot_in_range op = true) (h0 : 0 ≤ t) (h5 : t ≤ 5) :
    0 ≤ apply_session_op t op ∧ apply_session_op t op ≤ 5 := by
  cases op with
  | tick => exact ⟨h0, h5⟩
  | submitWrong =>
      simp only [apply_session_op, wrong_answer_tries]
      split <;> omega
  | submitRight => exact ⟨h0, h5⟩
  | restart snapshot =>
      simp only [snapshot_in_range, Bool.and_eq_true, decide_eq_true_eq] at hop
      simp only [apply_session_op, start_restore_tries]
      split <;> omega

/-- Folding a sequence of session operations with in-range snapshots
keeps the tries counter inside [0, 5]. -/
theorem run_session_ops_range :
    ∀ (ops : List SessionOp) (t : Int), (∀ op ∈ ops, snapshot_in_range op = true) →
      0 ≤ t → t ≤ 5 → 0 ≤ run_session_ops t ops ∧ run_session_ops t ops ≤ 5 := by
  intro ops
  induction ops with
  | nil => intro t h h0 h5; exact ⟨h0, h5⟩
  | cons op ops ih =>
      intro t h h0 h5
      have hstep := apply_session_op_range t op (h op (by simp)) h0 h5
      have htail := ih (apply_session_op t op) (fun o ho => h o (by simp [ho])) hstep.1 hstep.2
      simpa [run_session_ops, List.foldl_cons] using htail

/-! Claim theorems. -/

/-- C1: contrary to the claim that a blacklisted joiner is banned with no
Session created, GatewayGuild.on_member_join has no early return after
the ban: the blacklisted non-operator member 42 is banned and a captcha
channel is nevertheless created, registered for them and started. -/
theorem C1_blacklisted_join_still_creates_session :
    (gateway_on_member_join c1_state 42).banned_members = [42] ∧
    (gateway_on_member_join c1_state 42).captcha_channels = [42] ∧
    (gateway_on_member_join c1_state 42).sessions_started = [42] := by decide

/-- C2: contrary to the claim that ten joins through one unregistered
invite inside the window lead, at window close, to ten direct messages,
ten kicks and one invite revocation, the code performs none of these:
after all ten joins nobody has been messaged or kicked, the invite is
not deleted, and the tracker state is unchanged (the registered gate is
always taken, and even past it a within-window join discards the
temporal entry). -/
theorem C2_ten_joins_produce_no_kicks :
    c2_ten_joins.kicks = [] ∧ c2_ten_joins.dms = [] ∧
    c2_ten_joins.deleted_invites = [] ∧ c2_ten_joins = trackerInit := by decide

/-- C3: contrary to the claim that the registered-invitation check is
true exactly for codes added and not removed, is_registered_invitation
is true for a code never added (the pymongo find cursor is never None),
and a destination join through such a code is treated as the trusted
path: the tracker handler returns immediately and no temporal entry is
created. -/
theorem C3_unregistered_code_reported_registered :
    is_registered_invitation [] "zqvwxy" = true ∧
    is_registered_invitation
      (remove_registered_invitation (add_registered_invitation [] "abc") "abc") "abc" = true ∧
    tracker_on_member_join trackerInit "zqvwxy" 9 0 = trackerInit := by decide

/-- C4: each tick does decrement ttl by exactly 1, but contrary to the
claim that a reminder fires at every configured mark, the mark checks sit
inside the guard ttl greater or equal 600: the tick that reaches ttl 600
emits one reminder, while the ticks reaching the 300-second mark and the
30-second mark emit none. -/
theorem C4_reminders_only_fire_at_600 :
    (countdown_tick defaultConfig false 7 0 (runningChannelAt 601)).ttl = 600 ∧
    (countdown_tick defaultConfig false 7 0 (runningChannelAt 601)).alerts = 1 ∧
    (countdown_tick defaultConfig false 7 0 (runningChannelAt 301)).ttl = 300 ∧
    (countdown_tick defaultConfig false 7 0 (runningChannelAt 301)).alerts = 0 ∧
    (countdown_tick defaultConfig false 7 0 (runningChannelAt 31)).alerts = 0 := by decide

/-- C5: when ttl reaches 0 for a non-operator the session is indeed
terminated (loop stopped, failed record persisted, member banned,
channel deleted), but contrary to the claim the blacklist entry is
created with a hard-coded duration of 900 seconds, not the configured
blacklist_length of 86400. -/
theorem C5_expiry_blacklists_900_seconds :
    (countdown_tick defaultConfig false 7 1000 (runningChannelAt 1)).countdown_running = false ∧
    (countdown_tick defaultConfig false 7 1000 (runningChannelAt 1)).db_active = false ∧
    (countdown_tick defaultConfig false 7 1000 (runningChannelAt 1)).db_failed = true ∧
    (countdown_tick defaultConfig false 7 1000 (runningChannelAt 1)).member_banned = true ∧
    (countdown_tick defaultConfig false 7 1000 (runningChannelAt 1)).channel_deleted = true ∧
    (countdown_tick defaultConfig false 7 1000 (runningChannelAt 1)).blacklist =
      add_member_to_blacklist [] 7 1000 900 "Failed to complete Captcha assessment." ∧
    defaultConfig.blacklist_length = 86400 := by decide

/-- C6 counterexample: after the correct answer is submitted the session
is Completed, yet the countdown ticket is still scheduled, the channel
is not deleted, and the next tick still fires against the session and
decrements its ttl - refuting the claim that the session is destroyed so
that no further countdown ticks fire against it. -/
theorem C6_session_not_destroyed_on_completion :
    c6_result.completed = true ∧
    c6_result.countdown_running = true ∧
    c6_result.channel_deleted = false ∧
    (countdown_tick defaultConfig false 7 0 c6_result).ttl = c6_result.ttl - 1 := by decide

/-- C6 (amended): submitting the matching answer, case-insensitively, to
a started session with a rendered challenge sets the issued invite to a
fresh single-use 120-second invite, marks the session Completed and
persists the completed record with ttl 0 - but the handler does not
destroy the session: the countdown scheduling and the channel are left
exactly as they were, and while the ticket is scheduled the next tick
still decrements the ttl. -/
theorem C6_correct_answer_outcome (cfg : CaptchaConfig) (is_operator : Bool)
    (member_id : Nat) (now : Int) (fresh_answer content answer : String)
    (s : ChannelState) (hstart : s.started = true) (hans : s.answer_text = some answer)
    (hmatch : py_lower content = answer) :
    (on_message cfg is_operator true member_id now fresh_answer content s).invite =
        some { max_age := 120, max_uses := 1 } ∧
    (on_message cfg is_operator true member_id now fresh_answer content s).completed = true ∧
    (on_message cfg is_operator true member_id now fresh_answer content s).db_completed = true ∧
    (on_message cfg is_operator true member_id now fresh_answer content s).db_active = false ∧
    (on_message cfg is_operator true member_id now fresh_answer content s).db_ttl = 0 ∧
    (on_message cfg is_operator true member_id now fresh_answer content s).countdown_running =
        s.countdown_running ∧
    (on_message cfg is_operator true member_id now fresh_answer content s).channel_deleted =
        s.channel_deleted ∧
    (on_message cfg is_operator true member_id now fresh_answer content s).tries = s.tries ∧
    (s.countdown_running = true →
      (countdown_tick cfg is_operator member_id now
          (on_message cfg is_operator true member_id now fresh_answer content s)).ttl =
        (on_message cfg is_operator true member_id now fresh_answer content s).ttl - 1) := by
  have hrun : ∀ r : ChannelState, r.countdown_running = true →
      (countdown_tick cfg is_operator member_id now r).ttl = r.ttl - 1 :=
    fun r hr => countdown_tick_ttl cfg is_operator member_id now r hr
  unfold on_message
  simp only [hstart, hans, hmatch, create_tldr_invite]
  simp
  intro hcr
  rw [hrun]
  exact hcr

/-- C6 witness: the amended outcome evaluated on the concrete session
c6_session with answer qwerty and submission QWERTY. -/
theorem C6_correct_answer_outcome_witness :
    c6_result.invite = some { max_age := 120, max_uses := 1 } ∧
    c6_result.completed = true ∧
    c6_result.db_completed = true ∧
    c6_result.db_active = false ∧
    c6_result.db_ttl = 0 ∧
    c6_result.countdown_running = c6_session.countdown_running ∧
    c6_result.channel_deleted = c6_session.channel_deleted ∧
    c6_result.tries = c6_session.tries ∧
    (countdown_tick defaultConfig false 7 0 c6_result).ttl = c6_result.ttl - 1 := by
  have h := C6_correct_answer_outcome defaultConfig false 7 0 "fresh1" "QWERTY" "qwerty"
    c6_session rfl rfl (by decide)
  exact ⟨h.1, h.2.1, h.2.2.1, h.2.2.2.1, h.2.2.2.2.1, h.2.2.2.2.2.1, h.2.2.2.2.2.2.1,
    h.2.2.2.2.2.2.2.1, h.2.2.2.2.2.2.2.2 rfl⟩

/-- C7: once the rejoin counter crosses the configured limit, exactly one
blacklist entry is created for the member and they are banned on the
guild; and any leave event handled while the member is already banned on
the guild leaves the blacklist unchanged, so no further entry ever
results from subsequent leaves while banned. -/
theorem C7_rejoin_crossing_single_blacklist (cfg : CaptchaConfig) (s : GuildLeaveState)
    (member_id : Nat) (now : Int) :
    (member_id ∈ s.guild_bans →
      (gateway_on_member_leave cfg s member_id now).blacklist = s.blacklist) ∧
    (∀ c0 : CounterEntry,
      member_id ∉ s.guild_bans → member_id ∉ s.operators → member_id ∈ s.captcha_channels →
      get_captcha_counter s.counters member_id = some c0 →
      cfg.rejoin_limit ≤ c0.counter + 1 →
      (gateway_on_member_leave cfg s member_id now).blacklist =
        add_member_to_blacklist s.blacklist member_id now cfg.rejoin_blacklist_duration
          "Rejoined a Gateway Guild too often." ∧
      member_id ∈ (gateway_on_member_leave cfg s member_id now).guild_bans) := by
  constructor
  · intro hban
    unfold gateway_on_member_leave
    split
    · dsimp only
      repeat' split
      all_goals simp_all
    · rfl
  · intro c0 hnb hop hch hc hlim
    have hupd := get_update_counter s.counters member_id 1 now c0 hc
    unfold gateway_on_member_leave
    simp only [hch, if_true, hop, hupd]
    simp [hnb, hlim, hop, add_member_to_blacklist, hupd]

/-- C7 witness: member 9 crossing the limit on c7_cross_state gains
exactly one blacklist entry and the guild ban; a leave of the already
banned member 9 on c7_banned_state leaves the blacklist unchanged. -/
theorem C7_rejoin_crossing_single_blacklist_witness :
    (gateway_on_member_leave defaultConfig c7_banned_state 9 60).blacklist =
      c7_banned_state.blacklist ∧
    (gateway_on_member_leave defaultConfig c7_cross_state 9 50).blacklist =
      add_member_to_blacklist c7_cross_state.blacklist 9 50
        defaultConfig.rejoin_blacklist_duration "Rejoined a Gateway Guild too often." ∧
    9 ∈ (gateway_on_member_leave defaultConfig c7_cross_state 9 50).guild_bans := by
  have h1 := (C7_rejoin_crossing_single_blacklist defaultConfig c7_banned_state 9 60).1
    (by decide)
  have h2 := (C7_rejoin_crossing_single_blacklist defaultConfig c7_cross_state 9 50).2
    { mid := 9, counter := 2, updated_at := 0 }
    (by decide) (by decide) (by decide) (by decide) (by decide)
  exact ⟨h1, h2.1, h2.2⟩

/-- C8 counterexample: five wrong answers drive tries from 5 to 0; a
restart that restores the persisted snapshot 0 then yields tries 5,
because the restore treats a zero snapshot as absent - an operation of
the claimed sequence that increases the tries counter, refuting
monotonic non-increase. -/
theorem C8_restore_zero_increases_tries :
    run_session_ops 5 c8_exhausted_ops = 0 ∧
    apply_session_op (run_session_ops 5 c8_exhausted_ops) (SessionOp.restart 0) = 5 := by decide

/-- C8 (amended): for every operation sequence whose restored snapshots
lie in [0, 5] - the only values the persisted record can hold - the
tries counter stays within [0, 5] starting from any in-range value; and
ticks and answer submissions never increase it: ticks and correct
submissions leave it unchanged and a wrong submission moves it down with
a floor of 0.  The one exception, restoring a snapshot of 0, is the
counterexample above. -/
theorem C8_tries_range_invariant :
    (∀ (ops : List SessionOp) (t : Int), (∀ op ∈ ops, snapshot_in_range op = true) →
      0 ≤ t → t ≤ 5 → 0 ≤ run_session_ops t ops ∧ run_session_ops t ops ≤ 5) ∧
    (∀ u : Int, 0 ≤ u →
      apply_session_op u SessionOp.tick = u ∧
      apply_session_op u SessionOp.submitRight = u ∧
      apply_session_op u SessionOp.submitWrong ≤ u ∧
      0 ≤ apply_session_op u SessionOp.submitWrong) := by
  constructor
  · exact run_session_ops_range
  · intro u hu
    refine ⟨rfl, rfl, ?_, ?_⟩ <;>
      · simp only [apply_session_op, wrong_answer_tries]
        split <;> omega

/-- C8 witness: the range invariant evaluated on the concrete sequence
c8_mixed_ops from tries 5, and the per-operation facts at tries 4. -/
theorem C8_tries_range_invariant_witness :
    (0 ≤ run_session_ops 5 c8_mixed_ops ∧ run_session_ops 5 c8_mixed_ops ≤ 5) ∧
    (apply_session_op 4 SessionOp.tick = 4 ∧
      apply_session_op 4 SessionOp.submitRight = 4 ∧
      apply_session_op 4 SessionOp.submitWrong ≤ 4 ∧
      0 ≤ apply_session_op 4 SessionOp.submitWrong) :=
  ⟨C8_tries_range_invariant.1 c8_mixed_ops 5 (by decide) (by decide) (by decide),
   C8_tries_range_invariant.2 4 (by decide)⟩

/-- C9 counterexample: the Completed session c6_result (a terminal state
with its challenge text still rendered) does not ignore a further
message: the wrong submission zzz decrements tries and sends two further
channel messages, changing both session state and platform state -
refuting the claim that messages to non-Active or terminal sessions are
ignored. -/
theorem C9_completed_session_processes_message :
    c6_result.completed = true ∧
    c9_probe.tries = c6_result.tries - 1 ∧
    c9_probe.messages_sent = c6_result.messages_sent + 2 ∧
    c9_probe ≠ c6_result := by decide

/-- C9 (amended): a message is ignored - the session state is returned
unchanged, so nothing is mutated and no platform action is recorded -
exactly when the session has not been started or has no challenge text
currently rendered; the handler checks only these two guards, not the
Active flag nor any terminal state. -/
theorem C9_message_ignored_without_challenge (cfg : CaptchaConfig)
    (is_operator main_channel_configured : Bool) (member_id : Nat) (now : Int)
    (fresh_answer content : String) (s : ChannelState)
    (h : s.started = false ∨ s.answer_text = none) :
    on_message cfg is_operator main_channel_configured member_id now fresh_answer content s
      = s := by
  rcases h with h | h
  · simp [on_message, h]
  · unfold on_message
    rw [h]
    split <;> rfl

/-- C9 witness: a freshly constructed, unstarted channel ignores the
message zzz. -/
theorem C9_message_ignored_without_challenge_witness :
    on_message defaultConfig false true 7 0 "abc" "zzz" (initChannelState defaultConfig) =
      initChannelState defaultConfig :=
  C9_message_ignored_without_challenge defaultConfig false true 7 0 "abc" "zzz"
    (initChannelState defaultConfig) (Or.inl rfl)

/-- C10: the join-time blacklist check ignores the end time of the entry:
a member with a blacklist entry whose end has already elapsed is still
banned on joining a holding area, and the entry only stops having effect
once the minute sweep of unban_task deletes it - after the sweep runs at
a time past the end, the lookup for the member comes back empty. -/
theorem C10_blacklist_check_ignores_end_time (s : GatewayGuildState) (member_id : Nat)
    (now : Int) :
    ((∃ e ∈ s.blacklist, e.mid = member_id ∧ e.ends < now) →
      member_id ∈ (gateway_on_member_join s member_id).banned_members) ∧
    (∀ e : BlacklistEntry, e.mid = member_id → e.ends ≤ now →
      get_blacklisted_member_info (unban_task_blacklist_pass [e] now) member_id = none) := by
  constructor
  · intro h
    apply banned_on_join_of_blacklisted
    apply find?_isSome_of_mid_mem
    obtain ⟨e, he, hmid, _⟩ := h
    exact ⟨e, he, hmid⟩
  · intro e hmid hends
    subst hmid
    simp [unban_task_blacklist_pass, List.filter, hends, remove_member_from_blacklist,
      get_blacklisted_member_info]

/-- C10 witness: member 42, whose entry ended at 86400, joins at time
100000 and is still banned; sweeping the singleton blacklist at time
100000 removes the entry so the lookup comes back empty. -/
theorem C10_blacklist_check_ignores_end_time_witness :
    42 ∈ (gateway_on_member_join c1_state 42).banned_members ∧
    get_blacklisted_member_info (unban_task_blacklist_pass [c10_entry] 100000) 42 = none :=
  ⟨(C10_blacklist_check_ignores_end_time c1_state 42 100000).1
      ⟨c10_entry, by decide, by decide, by decide⟩,
   (C10_blacklist_check_ignores_end_time c1_state 42 100000).2 c10_entry
      (by decide) (by decide)⟩

end Captcha
